import Mathlib

/-!
# Verification of the dazzle-dash dashboard transforms

Shallow embedding, in Lean 4, of the data transformations performed by the
dashboard scripts of this repository (`app/app_food.py`, `app/appWHO.py`,
`app/who/app_who.py`, `app/flights/app_flights.py`), together with theorems
settling the specified properties of those transformations.

Conventions used throughout the embedding:
* a pandas DataFrame is a Lean list of rows (row order is the frame order);
* a cell that pandas would hold as `NaN` (a non-numeric or missing value
  after `pd.to_numeric(..., errors="coerce")`) is `Option.none`;
* float arithmetic is modelled exactly over `ℚ` (and over `ℝ` where the
  source computes square roots);
* a Python function that can raise is modelled as returning `Except String`,
  the error carrying the name of the Python exception.
-/

/-- Ascending stable sort of a list of keys, as `pandas.groupby(sort=True)`
orders its groups. -/
def sortAsc (l : List String) : List String :=
  List.insertionSort (fun a b => a ≤ b) l

/-- Stable descending sort of `(key, value)` pairs by value, as
`Series.sort_values(ascending=False)` and `Series.nlargest` order entries. -/
def sortDescByValue (l : List (String × ℚ)) : List (String × ℚ) :=
  List.insertionSort (fun a b => b.2 ≤ a.2) l

instance : IsTotal (String × ℚ) (fun a b => b.2 ≤ a.2) :=
  ⟨fun a b => le_total b.2 a.2⟩

instance : IsTrans (String × ℚ) (fun a b => b.2 ≤ a.2) :=
  ⟨fun _ _ _ h1 h2 => le_trans h2 h1⟩

/-- `Series.nlargest n`: the `n` largest entries, in descending order,
ties resolved by first appearance (pandas `keep="first"`), which is a stable
descending sort followed by `take n`. -/
def nlargest (n : ℕ) (l : List (String × ℚ)) : List (String × ℚ) :=
  (sortDescByValue l).take n

/-- `Series.mean()` of an already `NaN`-free list of values. -/
def meanQ (l : List ℚ) : ℚ := l.sum / l.length

namespace FAO

/-- One row of the wide FAO table handled by `load_prepare_data` in
`app/app_food.py`: `ids` are the values of the identifier columns
(`Country`, `Product`, `Unit`, ...) and `vals` are the cells of the year
columns after `pd.to_numeric(..., errors="coerce")` (`none` = `NaN`). -/
structure WideRow where
  ids : List String
  vals : List (Option ℚ)
deriving DecidableEq

/-- `df.melt(id_vars=..., value_vars=year_cols, ...)` restricted to one input
row: one `(identifiers, Year, Value)` triple per year column
(`app/app_food.py`, line 61). -/
def meltRow (yearCols : List String) (r : WideRow) : List (List String × String × Option ℚ) :=
  (yearCols.zip r.vals).map fun p => (r.ids, p.1, p.2)

/-- The full melt of `app/app_food.py` line 61: every input row contributes
one long row per year column. -/
def melt (yearCols : List String) (rows : List WideRow) : List (List String × String × Option ℚ) :=
  rows.flatMap (meltRow yearCols)

/-- `df_long.dropna(subset=["Value"])` (`app/app_food.py`, line 66): keep
exactly the long rows whose `Value` cell is numeric. -/
def dropnaValue (l : List (List String × String × Option ℚ)) :
    List (List String × String × ℚ) :=
  l.filterMap fun t => t.2.2.map fun q => (t.1, t.2.1, q)

/-- The long frame produced by `load_prepare_data` (`app/app_food.py`,
lines 57-66): melt the year columns, then drop rows without a numeric
`Value`. -/
def prepareLong (yearCols : List String) (rows : List WideRow) :
    List (List String × String × ℚ) :=
  dropnaValue (melt yearCols rows)

/-- Number of year cells of a wide row that are non-numeric/missing. -/
def naCount (r : WideRow) : ℕ := (r.vals.filter Option.isNone).length

/-- Sum of the numeric year cells of a wide row. -/
def rowValueSum (r : WideRow) : ℚ := (r.vals.filterMap id).sum

/-- One row of the long FAO frame stored in `df-long-store` (`Country`,
`Product`, `Year`, `Value`). `Year` is the calendar year carried by the
datetime column. -/
structure LongRow where
  country : String
  product : String
  year : ℤ
  value : ℚ
deriving DecidableEq

/-- The long frame a callback reads back from the store. The `has*` flags
record which named columns the frame carries, since the callbacks of
`app/app_food.py` test e.g. `"Country" not in dfl.columns`; a row field is
meaningful only when the matching flag is set. -/
structure LongTable where
  hasCountry : Bool
  hasProduct : Bool
  hasYear : Bool
  hasValue : Bool
  rows : List LongRow
deriving DecidableEq

/-- Contents of the `validated-filters` store. Each field is a Python value
that may be `None` (`Option.none`) or a list. -/
structure StoredFilters where
  countries : Option (List String)
  products : Option (List String)
  yearRange : Option (List ℤ)
deriving DecidableEq

/-- `update_validated_filters` (`app/app_food.py`, lines 308-315):
`None` clicks raises `PreventUpdate` (modelled as `none`, the store output
unchanged); otherwise each `None` control value is stored as `[]`. -/
def update_validated_filters (n_clicks : Option ℕ)
    (countries products : Option (List String)) (year_range : Option (List ℤ)) :
    Option StoredFilters :=
  match n_clicks with
  | none => none
  | some _ =>
    some { countries := some (countries.getD [])
           products := some (products.getD [])
           yearRange := some (year_range.getD []) }

/-- The year-range filter step shared by the bar-chart callbacks
(`app/app_food.py`, lines 330-333 and 363-365): applied only when the store
holds a truthy `year_range` and the frame has a `Year` column; unpacking a
range that does not have exactly two entries raises `ValueError`;
`Series.between` is inclusive on both ends. -/
def applyYearFilter (vf : Option StoredFilters) (t : LongTable) :
    Except String LongTable :=
  match vf with
  | none => .ok t
  | some f =>
    if !(f.yearRange.getD []).isEmpty && t.hasYear then
      match f.yearRange.getD [] with
      | [s, e] =>
        .ok { t with rows := t.rows.filter fun r => decide (s ≤ r.year) && decide (r.year ≤ e) }
      | _ => .error "ValueError"
    else .ok t

/-- The product filter of `update_top_areas` (`app/app_food.py`, lines
336-337): `dfl["Product"]` is read without first checking that the column
exists, so a truthy products filter on a frame without a `Product` column
raises `KeyError`. -/
def applyProductsFilter (vf : Option StoredFilters) (t : LongTable) :
    Except String LongTable :=
  match vf with
  | none => .ok t
  | some f =>
    if !(f.products.getD []).isEmpty then
      if t.hasProduct then
        .ok { t with rows := t.rows.filter fun r => (f.products.getD []).contains r.product }
      else .error "KeyError"
    else .ok t

/-- The country filter of `update_top_items` (`app/app_food.py`, lines
367-368), symmetric to the product filter. -/
def applyCountriesFilter (vf : Option StoredFilters) (t : LongTable) :
    Except String LongTable :=
  match vf with
  | none => .ok t
  | some f =>
    if !(f.countries.getD []).isEmpty then
      if t.hasCountry then
        .ok { t with rows := t.rows.filter fun r => (f.countries.getD []).contains r.country }
      else .error "KeyError"
    else .ok t

/-- A rendered figure: either a placeholder carrying only a title, or a bar
chart carrying its `(label, value)` data. -/
inductive Fig where
  | placeholder (title : String)
  | bar (title : String) (data : List (String × ℚ))
deriving DecidableEq

/-- `dfl.groupby(key)[val].sum()`: one `(key, sum)` entry per distinct key,
keys in ascending order (`groupby` default `sort=True`). -/
def groupSumBy (key : LongRow → String) (val : LongRow → ℚ) (rows : List LongRow) :
    List (String × ℚ) :=
  (sortAsc (rows.map key).dedup).map fun k =>
    (k, ((rows.filter fun r => key r == k).map val).sum)

/-- `update_top_areas` (`app/app_food.py`, lines 322-348). -/
def update_top_areas (vf : Option StoredFilters) (t : LongTable) :
    Except String Fig :=
  if t.rows.isEmpty then .ok (.placeholder "No data available")
  else
    match applyYearFilter vf t with
    | .error e => .error e
    | .ok t1 =>
      match applyProductsFilter vf t1 with
      | .error e => .error e
      | .ok t2 =>
        if t2.rows.isEmpty || !t2.hasCountry || !t2.hasValue then
          .ok (.placeholder "No data for selected filters")
        else
          .ok (.bar "Top 10 Countries by Quantity Produced"
            (nlargest 10 (groupSumBy (fun r => r.country) (fun r => r.value) t2.rows)))

/-- `update_top_items` (`app/app_food.py`, lines 356-379). -/
def update_top_items (vf : Option StoredFilters) (t : LongTable) :
    Except String Fig :=
  if t.rows.isEmpty then .ok (.placeholder "No data available")
  else
    match applyYearFilter vf t with
    | .error e => .error e
    | .ok t1 =>
      match applyCountriesFilter vf t1 with
      | .error e => .error e
      | .ok t2 =>
        if t2.rows.isEmpty || !t2.hasProduct || !t2.hasValue then
          .ok (.placeholder "No data for selected filters")
        else
          .ok (.bar "Top 10 Products by Quantity Produced"
            (nlargest 10 (groupSumBy (fun r => r.product) (fun r => r.value) t2.rows)))

/-- The per-country data preparation of `update_pie` (`app/app_food.py`,
lines 487-489): restrict to the country, sum `Value` per `Product`, keep
strictly positive totals, sort by descending value. -/
def pieAgg (country : String) (rows : List LongRow) : List (String × ℚ) :=
  sortDescByValue
    ((groupSumBy (fun r => r.product) (fun r => r.value)
        (rows.filter fun r => r.country == country)).filter fun p => decide (0 < p.2))

/-- The small-slice bucketing of `update_pie` (`app/app_food.py`, lines
492-500): the threshold is 3% of the total, categories at or above it are
kept, the rest are summed and shown as "Other" only when that sum is
strictly positive. -/
def pieBuckets (data : List (String × ℚ)) : List (String × ℚ) :=
  let total := (data.map Prod.snd).sum
  let thresh := total * (3 / 100)
  let big := data.filter fun p => decide (thresh ≤ p.2)
  let smallSum := ((data.filter fun p => decide (p.2 < thresh)).map Prod.snd).sum
  if 0 < smallSum then big ++ [("Other", smallSum)] else big

/-- The file-dispatch of `load_prepare_data` (`app/app_food.py`, lines
24-39): when neither the parquet cache nor the CSV exists, the function
returns empty wide and long frames instead of raising, so the UI still
builds. -/
def load_prepare_data (parquetExists csvExists : Bool) (yearCols : List String)
    (raw : List WideRow) : List WideRow × List (List String × String × ℚ) :=
  if parquetExists || csvExists then (raw, prepareLong yearCols raw)
  else ([], [])

end FAO

namespace Flights

/-- One row of the flights table of `app/flights/app_flights.py` after
`preprocess`: every analysed column may be `NaN` (`none`). -/
structure FRow where
  airlineName : Option String
  date : Option ℤ
  arrivalDelay : Option ℚ
  dayName : Option String
deriving DecidableEq

/-- A rendered flights figure: placeholder (a `px.bar(title=...)` with no
data) or a bar chart with its `(label, value)` data. -/
inductive FFig where
  | placeholder (title : String)
  | bar (title : String) (data : List (String × ℚ))
deriving DecidableEq

/-- `tmp.groupby(key)[...].mean()` over rows whose `key` and delay cells are
both present, one `(key, mean)` entry per distinct key in ascending key
order. -/
def groupMeanBy (key : FRow → Option String) (rows : List FRow) :
    List (String × ℚ) :=
  (sortAsc (rows.filterMap key).dedup).map fun k =>
    (k, meanQ (rows.filterMap fun r => if key r == some k then r.arrivalDelay else none))

/-- `make_day_fig` (`app/flights/app_flights.py`, lines 108-113): drops rows
without `DAY_NAME`/`ARRIVAL_DELAY`, returns the `"Aucune donnée"`
placeholder when nothing is left, otherwise the per-day mean delays. -/
def make_day_fig (rows : List FRow) : FFig :=
  let tmp := rows.filter fun r => r.dayName.isSome && r.arrivalDelay.isSome
  if tmp.isEmpty then .placeholder "Aucune donnée"
  else .bar "Retard moyen par jour" (groupMeanBy (fun r => r.dayName) tmp)

/-- `make_airline_fig` (`app/flights/app_flights.py`, lines 114-118): per
airline mean delay, descending, head 15 — rendered with no emptiness
check. -/
def make_airline_fig (rows : List FRow) : FFig :=
  let tmp := rows.filter fun r => r.airlineName.isSome && r.arrivalDelay.isSome
  .bar "Top 15 compagnies (retard moyen)"
    ((sortDescByValue (groupMeanBy (fun r => r.airlineName) tmp)).take 15)

/-- The combined filter mask of `update_dashboard`
(`app/flights/app_flights.py`, lines 91-97): airline equality when an
airline is selected, then inclusive date bounds when given (comparisons
against a missing date are `False`). -/
def filterMask (airline : Option String) (start stop : Option ℤ) (rows : List FRow) :
    List FRow :=
  let r1 := match airline with
    | none => rows
    | some a => rows.filter fun r => r.airlineName == some a
  let r2 := match start with
    | none => r1
    | some s => r1.filter fun r => match r.date with
        | none => false
        | some d => decide (s ≤ d)
  match stop with
  | none => r2
  | some e => r2.filter fun r => match r.date with
      | none => false
      | some d => decide (d ≤ e)

/-- The module-level load of `app/flights/app_flights.py`, line 9:
`pd.read_csv` with no exception handler, so a missing file raises
`FileNotFoundError` at import time and startup aborts. -/
def load_flights (fileExists : Bool) (raw : List FRow) : Except String (List FRow) :=
  if fileExists then .ok raw else .error "FileNotFoundError"

end Flights

namespace WHO

/-- One row of the WHO life-expectancy table of `app/appWHO.py` and
`app/who/app_who.py`: a `country`, an integer `year` (the code converts it
with `astype(int)`), and the remaining columns as an association list of
cells that may be `NaN` (`none`). -/
structure WRow where
  country : String
  year : ℤ
  vals : List (String × Option ℚ)
deriving DecidableEq

/-- Read a named cell of a row (`none` when the column is absent for this
row or holds `NaN`). -/
def valOf (c : String) (r : WRow) : Option ℚ := (r.vals.lookup c).join

/-- `Series.mean()` with pandas `NaN` semantics: the mean of the non-`NaN`
values, `NaN` (`none`) when there are none. -/
def meanOpt (l : List ℚ) : Option ℚ := if l.isEmpty then none else some (meanQ l)

/-- `df.groupby('country')[indicator].mean()` (`app/appWHO.py`, line 137):
one entry per country, countries ascending, the mean of the indicator over
all rows of that country — the year column plays no part. -/
def perCountryMean (indicator : String) (rows : List WRow) : List (String × Option ℚ) :=
  (sortAsc (rows.map fun r => r.country).dedup).map fun c =>
    (c, meanOpt ((rows.filter fun r => r.country == c).filterMap (valOf indicator)))

/-- The data selected by `update_global_graph` for its choropleth
(`app/appWHO.py`, lines 130-142). -/
inductive GlobalFig where
  | notNumeric (indicator : String)
  | aggregated (data : List (String × Option ℚ))
  | yearly (year : ℤ) (rows : List WRow)
deriving DecidableEq

/-- `update_global_graph` (`app/appWHO.py`, lines 111-142), restricted to
the data it plots: year 1999 triggers the all-years per-country mean (after
checking the indicator is a numeric column), any other year filters to that
literal year. -/
def update_global_graph (numericCols : List String) (indicator : String)
    (year : ℤ) (rows : List WRow) : GlobalFig :=
  if year = 1999 then
    if numericCols.contains indicator then .aggregated (perCountryMean indicator rows)
    else .notNumeric indicator
  else .yearly year (rows.filter fun r => r.year == year)

/-- `update_data_table` (`app/appWHO.py`, lines 324-340): the four
country/year filter combinations, with 1999 meaning "all years" and
`'World'` meaning "all countries". -/
def update_data_table (country : String) (year : ℤ) (rows : List WRow) : List WRow :=
  if country = "World" then
    if year = 1999 then rows
    else rows.filter fun r => r.year == year
  else
    if year = 1999 then rows.filter fun r => r.country == country
    else rows.filter fun r => r.country == country && r.year == year

/-- Ascending sort of integer years, as Python `sorted`. -/
def sortAscInt (l : List ℤ) : List ℤ :=
  List.insertionSort (fun a b => a ≤ b) l

/-- The selectable year list (`app/appWHO.py`, lines 38-40 and
`app/who/app_who.py`, lines 47-49): the sorted distinct years of the data,
with the sentinel 1999 inserted at the front only when 1999 is not already
among them. -/
def yearOptions (rows : List WRow) : List ℤ :=
  let ys := sortAscInt (rows.map fun r => r.year).dedup
  if 1999 ∈ ys then ys else 1999 :: ys

/-- The dummy frame built by `app/appWHO.py` (lines 20-27) when the CSV is
missing. -/
def whoDummy : List WRow :=
  [⟨"USA", 2000, [("life_expectancy", some (384 / 5)), ("IDH", some (22 / 25)),
      ("GDP", some 40000), ("population", some 282)]⟩,
   ⟨"USA", 2001, [("life_expectancy", some 77), ("IDH", some (89 / 100)),
      ("GDP", some 41000), ("population", some 285)]⟩,
   ⟨"Canada", 2000, [("life_expectancy", some (791 / 10)), ("IDH", some (89 / 100)),
      ("GDP", some 38000), ("population", some 30)]⟩,
   ⟨"Canada", 2001, [("life_expectancy", some (397 / 5)), ("IDH", some (9 / 10)),
      ("GDP", some 39000), ("population", some 31)]⟩]

/-- The guarded module-level load of `app/appWHO.py` (lines 12-27): a
missing CSV is caught, reported, and replaced by the dummy frame so the app
still starts. -/
def whoLoadData (fileExists : Bool) (fileRows : List WRow) : List WRow :=
  if fileExists then fileRows else whoDummy

/-- A concrete dataset whose `IDH` column is constant, so pandas reports
its correlation with the indicator as `NaN`. -/
def whoConstIDH : List WRow :=
  [⟨"USA", 2000, [("life_expectancy", some 1), ("IDH", some 5)]⟩,
   ⟨"USA", 2001, [("life_expectancy", some 2), ("IDH", some 5)]⟩]

/-- A concrete two-row dataset with both columns non-constant, so their
correlation is defined. -/
def whoLinear : List WRow :=
  [⟨"USA", 2000, [("life_expectancy", some 0), ("IDH", some 0)]⟩,
   ⟨"USA", 2001, [("life_expectancy", some 1), ("IDH", some 1)]⟩]

/-- The row-pairing pandas `DataFrame.corr` uses for one pair of columns:
pairwise-complete observations, keeping the rows where both columns are
numeric. -/
def pairedVals (x y : String) (rows : List WRow) : List (ℚ × ℚ) :=
  rows.filterMap fun r =>
    match valOf x r, valOf y r with
    | some a, some b => some (a, b)
    | _, _ => none

/-- Deviations from the column means for a list of paired observations. -/
def centered (l : List (ℚ × ℚ)) : List (ℚ × ℚ) :=
  l.map fun p => (p.1 - meanQ (l.map Prod.fst), p.2 - meanQ (l.map Prod.snd))

/-- Sum of products of deviations (the sample covariance numerator; the
`1/(n-1)` factors of covariance and standard deviation cancel in the
Pearson ratio, so they are omitted throughout). -/
def sxy (l : List (ℚ × ℚ)) : ℚ := ((centered l).map fun p => p.1 * p.2).sum

/-- Sum of squared deviations of the first column. -/
def sxx (l : List (ℚ × ℚ)) : ℚ := ((centered l).map fun p => p.1 ^ 2).sum

/-- Sum of squared deviations of the second column. -/
def syy (l : List (ℚ × ℚ)) : ℚ := ((centered l).map fun p => p.2 ^ 2).sum

/-- The value of the Pearson correlation coefficient of a list of paired
observations in the non-degenerate case (both deviation sums non-zero). -/
noncomputable def pearson (l : List (ℚ × ℚ)) : ℝ :=
  (sxy l : ℝ) / (Real.sqrt ((sxx l : ℝ)) * Real.sqrt ((syy l : ℝ)))

/-- The Pearson correlation as `DataFrame.corr` computes it for one pair of
columns: `NaN` (modelled as `none`) when either column has zero deviation
sum — a constant column, or fewer than two paired observations — since the
float computation is then `0/0`; otherwise the ratio `pearson l`. -/
noncomputable def pearsonOpt (l : List (ℚ × ℚ)) : Option ℝ :=
  if sxx l = 0 ∨ syy l = 0 then none else some (pearson l)

/-- `numeric_df.corr()[indicator].drop(index=indicator)`
(`app/appWHO.py`, line 254): every numeric column other than the indicator,
paired with its (possibly `NaN`) Pearson correlation against the
indicator. -/
noncomputable def corrSeries (numericCols : List String) (indicator : String)
    (rows : List WRow) : List (String × Option ℝ) :=
  (numericCols.filter fun c => !(c == indicator)).map fun c =>
    (c, pearsonOpt (pairedVals indicator c rows))

noncomputable instance : DecidableRel (fun a b : String × ℝ => b.2 ≤ a.2) :=
  fun a b => Real.decidableLE b.2 a.2

instance : IsTotal (String × ℝ) (fun a b => b.2 ≤ a.2) :=
  ⟨fun a b => le_total b.2 a.2⟩

instance : IsTrans (String × ℝ) (fun a b => b.2 ≤ a.2) :=
  ⟨fun _ _ _ h1 h2 => le_trans h2 h1⟩

/-- The non-`NaN` entries of the correlation series, sorted descending by
value — the front part of `.sort_values(ascending=False)`. -/
noncomputable def corrDefinedSorted (numericCols : List String) (indicator : String)
    (rows : List WRow) : List (String × ℝ) :=
  List.insertionSort (fun a b => b.2 ≤ a.2)
    ((corrSeries numericCols indicator rows).filterMap fun p => p.2.map fun v => (p.1, v))

/-- The `NaN` entries of the correlation series, in series order. -/
noncomputable def corrNaN (numericCols : List String) (indicator : String)
    (rows : List WRow) : List (String × Option ℝ) :=
  (corrSeries numericCols indicator rows).filter fun p => p.2.isNone

/-- `.sort_values(ascending=False)` applied to the correlation series, with
pandas semantics: the defined values sorted descending, followed by the
`NaN` entries (`na_position="last"`, the default). -/
noncomputable def corrSorted (numericCols : List String) (indicator : String)
    (rows : List WRow) : List (String × Option ℝ) :=
  ((corrDefinedSorted numericCols indicator rows).map fun p => (p.1, some p.2))
    ++ corrNaN numericCols indicator rows

/-- Result of `update_correlation_graph`: a placeholder for a non-numeric
indicator, otherwise the sorted correlation chart data (`NaN` entries
included — the bar chart renders them as valueless bars). -/
inductive CorrFig where
  | notNumeric (indicator : String)
  | chart (data : List (String × Option ℝ))

/-- `update_correlation_graph` (`app/appWHO.py`, lines 248-280 and
`app/who/app_who.py`, lines 189-204), restricted to the data it plots. -/
noncomputable def update_correlation_graph (numericCols : List String)
    (indicator : String) (rows : List WRow) : CorrFig :=
  if numericCols.contains indicator then
    .chart (corrSorted numericCols indicator rows)
  else .notNumeric indicator

end WHO

/-! Helper lemmas and claim theorems; all embedding definitions are above. -/

lemma nlargest_length_le (n : ℕ) (l : List (String × ℚ)) :
    (nlargest n l).length ≤ n := by
  simp [nlargest]

lemma nlargest_sorted (n : ℕ) (l : List (String × ℚ)) :
    List.Sorted (fun a b => b.2 ≤ a.2) (nlargest n l) :=
  (List.sorted_insertionSort _ l).sublist (List.take_sublist n _)

lemma nlargest_length_eq (n : ℕ) (l : List (String × ℚ)) :
    (nlargest n l).length = min n l.length := by
  unfold nlargest sortDescByValue
  rw [List.length_take, (List.perm_insertionSort _ l).length_eq]

lemma nlargest_perm_of_le (n : ℕ) (l : List (String × ℚ)) (h : l.length ≤ n) :
    (nlargest n l).Perm l := by
  unfold nlargest sortDescByValue
  rw [List.take_of_length_le (by rw [(List.perm_insertionSort _ l).length_eq]; exact h)]
  exact List.perm_insertionSort _ _

namespace FAO

lemma filterMap_id_length_add_naCount (vs : List (Option ℚ)) :
    (vs.filterMap id).length + (vs.filter Option.isNone).length = vs.length := by
  induction vs with
  | nil => rfl
  | cons v vs ih =>
    cases v <;> simp [List.filterMap_cons, List.filter_cons] <;> omega

lemma dropnaValue_map_length (ids : List String) (l : List (String × Option ℚ)) :
    (dropnaValue (l.map fun p => (ids, p.1, p.2))).length
      = ((l.map Prod.snd).filterMap id).length := by
  induction l with
  | nil => rfl
  | cons p l ih =>
    rcases p with ⟨y, v⟩
    cases v <;> simp [dropnaValue, List.filterMap_cons] at ih ⊢ <;> simpa using ih

lemma dropnaValue_map_sum (ids : List String) (l : List (String × Option ℚ)) :
    ((dropnaValue (l.map fun p => (ids, p.1, p.2))).map fun t => t.2.2).sum
      = ((l.map Prod.snd).filterMap id).sum := by
  induction l with
  | nil => rfl
  | cons p l ih =>
    rcases p with ⟨y, v⟩
    cases v <;> simp [dropnaValue, List.filterMap_cons] at ih ⊢ <;> simpa using ih

lemma dropna_meltRow_length (yearCols : List String) (r : WideRow)
    (h : r.vals.length = yearCols.length) :
    (dropnaValue (meltRow yearCols r)).length = yearCols.length - naCount r := by
  have hz : (yearCols.zip r.vals).map Prod.snd = r.vals :=
    List.map_snd_zip _ _ (le_of_eq h)
  have := dropnaValue_map_length r.ids (yearCols.zip r.vals)
  rw [hz] at this
  have hc := filterMap_id_length_add_naCount r.vals
  unfold meltRow naCount
  omega

lemma dropna_meltRow_sum (yearCols : List String) (r : WideRow)
    (h : r.vals.length = yearCols.length) :
    ((dropnaValue (meltRow yearCols r)).map fun t => t.2.2).sum = rowValueSum r := by
  have hz : (yearCols.zip r.vals).map Prod.snd = r.vals :=
    List.map_snd_zip _ _ (le_of_eq h)
  have := dropnaValue_map_sum r.ids (yearCols.zip r.vals)
  rw [hz] at this
  simpa [meltRow, rowValueSum] using this

lemma prepareLong_cons (yearCols : List String) (r : WideRow) (rows : List WideRow) :
    prepareLong yearCols (r :: rows)
      = dropnaValue (meltRow yearCols r) ++ prepareLong yearCols rows := by
  simp [prepareLong, melt, List.flatMap_cons, dropnaValue, List.filterMap_append]

lemma naCount_le (yearCols : List String) (r : WideRow)
    (h : r.vals.length = yearCols.length) : naCount r ≤ yearCols.length := by
  have := filterMap_id_length_add_naCount r.vals
  unfold naCount
  omega

lemma sum_naCount_le (yearCols : List String) (rows : List WideRow)
    (h : ∀ r ∈ rows, r.vals.length = yearCols.length) :
    (rows.map naCount).sum ≤ rows.length * yearCols.length := by
  induction rows with
  | nil => simp
  | cons q rows ih =>
    have hq := naCount_le yearCols q (h q (List.mem_cons_self q rows))
    have ht := ih fun p hp => h p (List.mem_cons_of_mem q hp)
    simp only [List.map_cons, List.sum_cons, List.length_cons]
    have hmul : (rows.length + 1) * yearCols.length
        = yearCols.length + rows.length * yearCols.length := by ring
    omega

/-- C1: for a wide table whose rows all carry one cell per year column, the
melt-then-dropna of `load_prepare_data` produces, per original row, exactly
one long row per year column minus the non-numeric cells of that row; the
total long-row count is `rows * yearCols` minus the dropped cells; and the
sum of the long `Value` column equals the sum of the numeric year-cell
values of the wide table. -/
theorem fao_melt_value_preserving (yearCols : List String) (rows : List WideRow)
    (h : ∀ r ∈ rows, r.vals.length = yearCols.length) :
    (∀ r ∈ rows, (dropnaValue (meltRow yearCols r)).length = yearCols.length - naCount r)
    ∧ (prepareLong yearCols rows).length
        = rows.length * yearCols.length - (rows.map naCount).sum
    ∧ ((prepareLong yearCols rows).map fun t => t.2.2).sum
        = (rows.map rowValueSum).sum := by
  refine ⟨fun r hr => dropna_meltRow_length yearCols r (h r hr), ?_, ?_⟩
  · induction rows with
    | nil => simp [prepareLong, melt, dropnaValue]
    | cons r rows ih =>
      have hr : r.vals.length = yearCols.length := h r (List.mem_cons_self r rows)
      have hrest : ∀ q ∈ rows, q.vals.length = yearCols.length :=
        fun q hq => h q (List.mem_cons_of_mem r hq)
      have hsum_le := sum_naCount_le yearCols rows hrest
      have h1 := dropna_meltRow_length yearCols r hr
      have h2 := naCount_le yearCols r hr
      have h3 := ih hrest
      rw [prepareLong_cons, List.length_append, h1, h3]
      simp only [List.length_cons, List.map_cons, List.sum_cons]
      have : (rows.length + 1) * yearCols.length
          = yearCols.length + rows.length * yearCols.length := by ring
      omega
  · induction rows with
    | nil => simp [prepareLong, melt, dropnaValue]
    | cons r rows ih =>
      have hr : r.vals.length = yearCols.length := h r (List.mem_cons_self r rows)
      have hrest : ∀ q ∈ rows, q.vals.length = yearCols.length :=
        fun q hq => h q (List.mem_cons_of_mem r hq)
      rw [prepareLong_cons, List.map_append, List.sum_append,
        dropna_meltRow_sum yearCols r hr, ih hrest]
      simp

/-- Closed witness for `fao_melt_value_preserving`: a two-row table with two
year columns, one non-numeric cell, evaluated concretely. -/
theorem fao_melt_value_preserving_witness :
    (∀ r ∈ [WideRow.mk ["France", "Wheat"] [some 3, none],
            WideRow.mk ["Spain", "Rice"] [some 5, some 7]],
        r.vals.length = (["1961", "1962"] : List String).length)
    ∧ (prepareLong ["1961", "1962"]
        [WideRow.mk ["France", "Wheat"] [some 3, none],
         WideRow.mk ["Spain", "Rice"] [some 5, some 7]]).length = 3
    ∧ ((prepareLong ["1961", "1962"]
        [WideRow.mk ["France", "Wheat"] [some 3, none],
         WideRow.mk ["Spain", "Rice"] [some 5, some 7]]).map fun t => t.2.2).sum = 15 := by
  have h := fao_melt_value_preserving ["1961", "1962"]
    [WideRow.mk ["France", "Wheat"] [some 3, none],
     WideRow.mk ["Spain", "Rice"] [some 5, some 7]] (by decide)
  refine ⟨by decide, by rw [h.2.1]; decide, by rw [h.2.2]; norm_num [rowValueSum, List.filterMap_cons]⟩

end FAO

/-- C9: `update_validated_filters` leaves the validated-filters store
unchanged (`PreventUpdate`) while the Apply button has never been clicked,
and once clicked it stores every `None` control value as `[]`, so no stored
field is ever `None`. -/
theorem food_validated_filters_total (k : ℕ)
    (countries products : Option (List String)) (year_range : Option (List ℤ)) :
    FAO.update_validated_filters none countries products year_range = none
    ∧ ∃ f, FAO.update_validated_filters (some k) countries products year_range = some f
        ∧ f.countries ≠ none ∧ f.products ≠ none ∧ f.yearRange ≠ none
        ∧ f.countries = some (countries.getD []) ∧ f.products = some (products.getD [])
        ∧ f.yearRange = some (year_range.getD []) := by
  refine ⟨rfl, ⟨_, rfl, by simp, by simp, by simp, rfl, rfl, rfl⟩⟩

/-- C4: whenever `update_top_areas` or `update_top_items` renders a bar
chart, its data is the top-10 selection of the per-group sums of the
filtered table: at most 10 entries, sorted in descending order of the
aggregated value, of length `min 10 (number of groups)`, and when at most
10 groups exist the chart lists all of them (it is a permutation of the
full per-group aggregation). -/
theorem food_topn_length_sorted (vf : Option FAO.StoredFilters) (t : FAO.LongTable)
    (title : String) (l : List (String × ℚ))
    (h : FAO.update_top_areas vf t = .ok (.bar title l)
       ∨ FAO.update_top_items vf t = .ok (.bar title l)) :
    l.length ≤ 10 ∧ List.Sorted (fun a b => b.2 ≤ a.2) l
    ∧ ∃ groups : List (String × ℚ),
        l = nlargest 10 groups
        ∧ l.length = min 10 groups.length
        ∧ (groups.length ≤ 10 → l.Perm groups)
        ∧ ((∃ t1 t2, FAO.applyYearFilter vf t = .ok t1
              ∧ FAO.applyProductsFilter vf t1 = .ok t2
              ∧ groups = FAO.groupSumBy (fun r => r.country) (fun r => r.value) t2.rows)
          ∨ (∃ t1 t2, FAO.applyYearFilter vf t = .ok t1
              ∧ FAO.applyCountriesFilter vf t1 = .ok t2
              ∧ groups = FAO.groupSumBy (fun r => r.product) (fun r => r.value) t2.rows)) := by
  have build : ∀ groups : List (String × ℚ),
      (nlargest 10 groups).length ≤ 10
      ∧ List.Sorted (fun a b => b.2 ≤ a.2) (nlargest 10 groups)
      ∧ (nlargest 10 groups).length = min 10 groups.length
      ∧ (groups.length ≤ 10 → (nlargest 10 groups).Perm groups) :=
    fun groups => ⟨nlargest_length_le 10 groups, nlargest_sorted 10 groups,
      nlargest_length_eq 10 groups, fun hle => nlargest_perm_of_le 10 groups hle⟩
  rcases h with h | h
  · unfold FAO.update_top_areas at h
    split at h
    · simp at h
    · split at h
      · simp at h
      · rename_i t1 heq1
        split at h
        · simp at h
        · rename_i t2 heq2
          split at h
          · simp at h
          · simp only [Except.ok.injEq, FAO.Fig.bar.injEq] at h
            obtain ⟨-, hl⟩ := h
            subst hl
            obtain ⟨h1, h2, h3, h4⟩ :=
              build (FAO.groupSumBy (fun r => r.country) (fun r => r.value) t2.rows)
            exact ⟨h1, h2, _, rfl, h3, h4, Or.inl ⟨t1, t2, heq1, heq2, rfl⟩⟩
  · unfold FAO.update_top_items at h
    split at h
    · simp at h
    · split at h
      · simp at h
      · rename_i t1 heq1
        split at h
        · simp at h
        · rename_i t2 heq2
          split at h
          · simp at h
          · simp only [Except.ok.injEq, FAO.Fig.bar.injEq] at h
            obtain ⟨-, hl⟩ := h
            subst hl
            obtain ⟨h1, h2, h3, h4⟩ :=
              build (FAO.groupSumBy (fun r => r.product) (fun r => r.value) t2.rows)
            exact ⟨h1, h2, _, rfl, h3, h4, Or.inr ⟨t1, t2, heq1, heq2, rfl⟩⟩

lemma pieAgg_pos (country : String) (rows : List FAO.LongRow) :
    ∀ p ∈ FAO.pieAgg country rows, 0 < p.2 := by
  intro p hp
  unfold FAO.pieAgg sortDescByValue at hp
  rw [List.mem_insertionSort] at hp
  have := List.of_mem_filter hp
  simpa using this

lemma sum_map_filter_split (l : List (String × ℚ)) (c : ℚ) :
    ((l.filter fun p => decide (c ≤ p.2)).map Prod.snd).sum
      + ((l.filter fun p => decide (p.2 < c)).map Prod.snd).sum
      = (l.map Prod.snd).sum := by
  induction l with
  | nil => simp
  | cons a l ih =>
    rcases le_or_lt c a.2 with h | h
    · simp [List.filter_cons, h, not_lt.2 h]
      linarith [ih]
    · simp [List.filter_cons, h, not_le.2 h]
      linarith [ih]

lemma pieAgg_sorted (country : String) (rows : List FAO.LongRow) :
    List.Sorted (fun a b => b.2 ≤ a.2) (FAO.pieAgg country rows) :=
  List.sorted_insertionSort _ _

lemma pieBuckets_eq (data : List (String × ℚ)) :
    FAO.pieBuckets data
      = (data.filter fun p => decide ((data.map Prod.snd).sum * (3 / 100) ≤ p.2))
        ++ (if 0 < ((data.filter fun p =>
                decide (p.2 < (data.map Prod.snd).sum * (3 / 100))).map Prod.snd).sum
            then [("Other", ((data.filter fun p =>
                decide (p.2 < (data.map Prod.snd).sum * (3 / 100))).map Prod.snd).sum)]
            else []) := by
  simp only [FAO.pieBuckets]
  split <;> simp

/-- C3: for the per-category data `update_pie` feeds its bucketing step, the
sum of the displayed bucket values (including "Other" when present) equals
the sum of the input category values; the output is the below-threshold
categories merged into a single "Other" bucket holding their sum, appended
after the kept at-or-above-threshold categories; and the kept categories
stay in descending value order. -/
theorem food_pie_bucketing (country : String) (rows : List FAO.LongRow) :
    ((FAO.pieBuckets (FAO.pieAgg country rows)).map Prod.snd).sum
        = ((FAO.pieAgg country rows).map Prod.snd).sum
    ∧ FAO.pieBuckets (FAO.pieAgg country rows)
        = ((FAO.pieAgg country rows).filter fun p =>
              decide (((FAO.pieAgg country rows).map Prod.snd).sum * (3 / 100) ≤ p.2))
          ++ (if 0 < (((FAO.pieAgg country rows).filter fun p =>
                  decide (p.2 < ((FAO.pieAgg country rows).map Prod.snd).sum * (3 / 100))).map
                    Prod.snd).sum
              then [("Other",
                (((FAO.pieAgg country rows).filter fun p =>
                    decide (p.2 < ((FAO.pieAgg country rows).map Prod.snd).sum * (3 / 100))).map
                      Prod.snd).sum)]
              else [])
    ∧ List.Sorted (fun a b => b.2 ≤ a.2)
        ((FAO.pieAgg country rows).filter fun p =>
          decide (((FAO.pieAgg country rows).map Prod.snd).sum * (3 / 100) ≤ p.2)) := by
  have hsplit := sum_map_filter_split (FAO.pieAgg country rows)
    (((FAO.pieAgg country rows).map Prod.snd).sum * (3 / 100))
  have hpos : 0 ≤ (((FAO.pieAgg country rows).filter fun p =>
      decide (p.2 < ((FAO.pieAgg country rows).map Prod.snd).sum * (3 / 100))).map
        Prod.snd).sum := by
    apply List.sum_nonneg
    intro x hx
    rcases List.mem_map.1 hx with ⟨p, hp, hpx⟩
    have := pieAgg_pos country rows p (List.mem_of_mem_filter hp)
    rw [← hpx]
    exact le_of_lt this
  refine ⟨?_, pieBuckets_eq _, (pieAgg_sorted country rows).filter _⟩
  rw [pieBuckets_eq]
  by_cases hc : 0 < (((FAO.pieAgg country rows).filter fun p =>
      decide (p.2 < ((FAO.pieAgg country rows).map Prod.snd).sum * (3 / 100))).map
        Prod.snd).sum
  · rw [if_pos hc]
    simp only [List.map_append, List.sum_append, List.map_cons, List.map_nil,
      List.sum_cons, List.sum_nil, add_zero]
    exact hsplit
  · rw [if_neg hc]
    have hz := le_antisymm (not_lt.1 hc) hpos
    simp only [List.append_nil]
    linarith [hsplit]

/-- C10: every pie-slice value `update_pie` displays is strictly positive:
non-positive per-product totals are removed before bucketing, and the
"Other" slice is appended only when the small-category sum is strictly
positive. -/
theorem food_pie_slices_positive (country : String) (rows : List FAO.LongRow) :
    (∀ p ∈ FAO.pieAgg country rows, 0 < p.2)
    ∧ (∀ p ∈ FAO.groupSumBy (fun r => r.product) (fun r => r.value)
          (rows.filter fun r => r.country == country),
        p.2 ≤ 0 → p ∉ FAO.pieAgg country rows)
    ∧ (∀ v ∈ (FAO.pieBuckets (FAO.pieAgg country rows)).map Prod.snd, 0 < v)
    ∧ ((((FAO.pieAgg country rows).filter fun p =>
            decide (p.2 < ((FAO.pieAgg country rows).map Prod.snd).sum * (3 / 100))).map
              Prod.snd).sum = 0
        → FAO.pieBuckets (FAO.pieAgg country rows)
            = (FAO.pieAgg country rows).filter fun p =>
                decide (((FAO.pieAgg country rows).map Prod.snd).sum * (3 / 100) ≤ p.2)) := by
  refine ⟨pieAgg_pos country rows, ?_, ?_, ?_⟩
  · intro p _ hle hmem
    exact absurd (pieAgg_pos country rows p hmem) (not_lt.2 hle)
  · intro v hv
    rcases List.mem_map.1 hv with ⟨p, hp, hpv⟩
    rw [pieBuckets_eq] at hp
    rcases List.mem_append.1 hp with hp | hp
    · rw [← hpv]
      exact pieAgg_pos country rows p (List.mem_of_mem_filter hp)
    · rcases (em (0 < (((FAO.pieAgg country rows).filter fun q =>
          decide (q.2 < ((FAO.pieAgg country rows).map Prod.snd).sum * (3 / 100))).map
            Prod.snd).sum)) with hc | hc
      · rw [if_pos hc] at hp
        rcases List.mem_singleton.1 hp with rfl
        rw [← hpv]
        exact hc
      · rw [if_neg hc] at hp
        simp at hp
  · intro hz
    rw [pieBuckets_eq, hz]
    simp

/-- Closed witness for `food_pie_slices_positive`: a concrete one-product
table, whose single displayed slice value 3 is strictly positive. -/
theorem food_pie_slices_positive_witness : (0 : ℚ) < 3 :=
  (food_pie_slices_positive "France" [⟨"France", "Wheat", 1961, 3⟩]).1 ("Wheat", 3)
    (by simp [FAO.pieAgg, FAO.groupSumBy, sortDescByValue, sortAsc, List.insertionSort,
      List.orderedInsert, List.dedup])

/-- Closed witness for `food_topn_length_sorted`: a one-row table rendered
with no filters produces a one-entry bar chart, which is all of its single
group. -/
theorem food_topn_length_sorted_witness :
    ([(("France", (3 : ℚ)))].length ≤ 10)
    ∧ List.Sorted (fun a b : String × ℚ => b.2 ≤ a.2) [("France", (3 : ℚ))]
    ∧ ∃ groups : List (String × ℚ),
        [("France", (3 : ℚ))] = nlargest 10 groups
        ∧ [("France", (3 : ℚ))].length = min 10 groups.length
        ∧ (groups.length ≤ 10 → [("France", (3 : ℚ))].Perm groups)
        ∧ ((∃ t1 t2, FAO.applyYearFilter none
                ⟨true, true, true, true, [⟨"France", "Wheat", 1961, 3⟩]⟩ = .ok t1
              ∧ FAO.applyProductsFilter none t1 = .ok t2
              ∧ groups = FAO.groupSumBy (fun r => r.country) (fun r => r.value) t2.rows)
          ∨ (∃ t1 t2, FAO.applyYearFilter none
                ⟨true, true, true, true, [⟨"France", "Wheat", 1961, 3⟩]⟩ = .ok t1
              ∧ FAO.applyCountriesFilter none t1 = .ok t2
              ∧ groups = FAO.groupSumBy (fun r => r.product) (fun r => r.value) t2.rows)) := by
  refine food_topn_length_sorted none
    ⟨true, true, true, true, [⟨"France", "Wheat", 1961, 3⟩]⟩
    "Top 10 Countries by Quantity Produced" [("France", 3)] (Or.inl ?_)
  simp [FAO.update_top_areas, FAO.applyYearFilter, FAO.applyProductsFilter,
    FAO.groupSumBy, nlargest, sortDescByValue, sortAsc, List.insertionSort,
    List.orderedInsert, List.dedup]

lemma perCountryMean_year_invariant (indicator : String) (f : ℤ → ℤ)
    (rows : List WHO.WRow) :
    WHO.perCountryMean indicator (rows.map fun r => { r with year := f r.year })
      = WHO.perCountryMean indicator rows := by
  unfold WHO.perCountryMean
  have hmap : (rows.map fun r => { r with year := f r.year }).map
      (fun r : WHO.WRow => r.country) = rows.map fun r => r.country := by
    rw [List.map_map]
    rfl
  rw [hmap]
  refine List.map_congr_left fun c _ => ?_
  congr 1
  congr 1
  rw [List.filter_map, List.filterMap_map]
  rfl

/-- C2: with a numeric indicator selected, the sentinel year 1999 makes
`update_global_graph` return the per-country mean of the indicator over all
rows of the dataset (a computation that is invariant under arbitrary
relabelling of the year column), and makes `update_data_table` return rows
restricted only by the country selection, never by year. -/
theorem who_sentinel_year_aggregates (numericCols : List String) (indicator : String)
    (rows : List WHO.WRow) (c : String) (f : ℤ → ℤ)
    (h : numericCols.contains indicator = true) :
    WHO.update_global_graph numericCols indicator 1999 rows
        = .aggregated (WHO.perCountryMean indicator rows)
    ∧ WHO.perCountryMean indicator (rows.map fun r => { r with year := f r.year })
        = WHO.perCountryMean indicator rows
    ∧ WHO.update_data_table c 1999 rows
        = rows.filter fun r => c == "World" || r.country == c := by
  have hmem : indicator ∈ numericCols := by simpa using h
  refine ⟨by simp [WHO.update_global_graph, hmem],
    perCountryMean_year_invariant indicator f rows, ?_⟩
  by_cases hc : c = "World"
  · subst hc
    simp [WHO.update_data_table]
  · have hne : (c == "World") = false := by
      simp [hc]
    simp only [WHO.update_data_table, if_pos rfl, if_neg hc]
    refine (List.filter_congr fun r _ => ?_).symm
    rw [hne, Bool.false_or]

/-- Closed witness for `who_sentinel_year_aggregates`, on a concrete
two-country, two-year dataset. -/
theorem who_sentinel_year_aggregates_witness :
    WHO.update_global_graph ["life_expectancy", "IDH"] "life_expectancy" 1999 WHO.whoDummy
        = .aggregated (WHO.perCountryMean "life_expectancy" WHO.whoDummy)
    ∧ WHO.perCountryMean "life_expectancy"
          (WHO.whoDummy.map fun r => { r with year := r.year + 7 })
        = WHO.perCountryMean "life_expectancy" WHO.whoDummy
    ∧ WHO.update_data_table "Canada" 1999 WHO.whoDummy
        = WHO.whoDummy.filter fun r => "Canada" == "World" || r.country == "Canada" :=
  who_sentinel_year_aggregates ["life_expectancy", "IDH"] "life_expectancy"
    WHO.whoDummy "Canada" (fun y => y + 7) (by decide)

/-- C8: on a dataset that contains literal-1999 observations together with
other years, the sentinel is not inserted again into the selectable year
list (1999 appears there because it is a data year), selecting 1999 returns
the whole table, and no selectable year displays exactly the literal-1999
rows on their own. -/
theorem who_sentinel_shadows_literal_1999 (rows : List WHO.WRow)
    (h1 : ∃ r ∈ rows, r.year = 1999) (h2 : ∃ r ∈ rows, r.year ≠ 1999) :
    WHO.yearOptions rows = WHO.sortAscInt (rows.map fun r => r.year).dedup
    ∧ 1999 ∈ WHO.yearOptions rows
    ∧ WHO.update_data_table "World" 1999 rows = rows
    ∧ ∀ y ∈ WHO.yearOptions rows,
        WHO.update_data_table "World" y rows ≠ rows.filter fun r => r.year == 1999 := by
  obtain ⟨r1, hr1, hy1⟩ := h1
  obtain ⟨r2, hr2, hy2⟩ := h2
  have hmem : (1999 : ℤ) ∈ WHO.sortAscInt (rows.map fun r => r.year).dedup := by
    unfold WHO.sortAscInt
    rw [List.mem_insertionSort, List.mem_dedup]
    exact List.mem_map.2 ⟨r1, hr1, hy1⟩
  have hopts : WHO.yearOptions rows = WHO.sortAscInt (rows.map fun r => r.year).dedup := by
    unfold WHO.yearOptions
    rw [if_pos hmem]
  have htab : WHO.update_data_table "World" 1999 rows = rows := by
    simp [WHO.update_data_table]
  refine ⟨hopts, hopts ▸ hmem, htab, ?_⟩
  intro y _ heq
  by_cases hy : y = 1999
  · subst hy
    rw [htab] at heq
    have : r2 ∈ rows.filter fun r => r.year == 1999 := heq ▸ hr2
    exact hy2 (by simpa using (List.mem_filter.1 this).2)
  · have : WHO.update_data_table "World" y rows = rows.filter fun r => r.year == y := by
      simp [WHO.update_data_table, hy]
    rw [this] at heq
    have hr1y : r1 ∈ rows.filter fun r => r.year == 1999 :=
      List.mem_filter.2 ⟨hr1, by simp [hy1]⟩
    rw [← heq] at hr1y
    have := (List.mem_filter.1 hr1y).2
    rw [hy1] at this
    exact hy ((by simpa using this : (1999 : ℤ) = y).symm)

/-- Closed witness for `who_sentinel_shadows_literal_1999`: a dataset with
one 1999 row and one 2000 row, where selecting 1999 returns both rows and
never just the 1999 row. -/
theorem who_sentinel_shadows_literal_1999_witness :
    WHO.yearOptions [⟨"USA", 1999, []⟩, ⟨"USA", 2000, []⟩]
        = WHO.sortAscInt (([⟨"USA", 1999, []⟩, ⟨"USA", 2000, []⟩] :
            List WHO.WRow).map fun r => r.year).dedup
    ∧ WHO.update_data_table "World" 1999 [⟨"USA", 1999, []⟩, ⟨"USA", 2000, []⟩]
        = [⟨"USA", 1999, []⟩, ⟨"USA", 2000, []⟩]
    ∧ WHO.update_data_table "World" 1999 [⟨"USA", 1999, []⟩, ⟨"USA", 2000, []⟩]
        ≠ ([⟨"USA", 1999, []⟩, ⟨"USA", 2000, []⟩] :
            List WHO.WRow).filter fun r => r.year == 1999 := by
  have h := who_sentinel_shadows_literal_1999 [⟨"USA", 1999, []⟩, ⟨"USA", 2000, []⟩]
    ⟨⟨"USA", 1999, []⟩, by simp, rfl⟩ ⟨⟨"USA", 2000, []⟩, by simp, by decide⟩
  refine ⟨h.1, h.2.2.1, h.2.2.2 1999 ?_⟩
  rw [h.1]
  decide

lemma applyYearFilter_ok (vf : Option FAO.StoredFilters) (t : FAO.LongTable)
    (hwf : ∀ f, vf = some f →
      (f.yearRange.getD []).length = 0 ∨ (f.yearRange.getD []).length = 2) :
    ∃ t1, FAO.applyYearFilter vf t = .ok t1 ∧ t1.rows.Sublist t.rows
      ∧ t1.hasProduct = t.hasProduct := by
  match vf with
  | none => exact ⟨t, rfl, List.Sublist.refl _, rfl⟩
  | some f =>
    rcases hwf f rfl with h0 | h2
    · rw [List.length_eq_zero] at h0
      refine ⟨t, ?_, List.Sublist.refl _, rfl⟩
      simp [FAO.applyYearFilter, h0]
    · obtain ⟨s, e, hse⟩ := List.length_eq_two.1 h2
      unfold FAO.applyYearFilter
      dsimp only
      rw [hse]
      by_cases hy : t.hasYear
      · simp only [hy, List.isEmpty_cons, Bool.not_false, Bool.and_true, Bool.and_self,
          if_true, ite_true]
        exact ⟨_, rfl, List.filter_sublist _, rfl⟩
      · simp only [hy, Bool.and_false, ite_false, Bool.false_eq_true, if_false]
        exact ⟨t, rfl, List.Sublist.refl _, rfl⟩

lemma applyProductsFilter_ok (vf : Option FAO.StoredFilters) (t : FAO.LongTable)
    (hwf : ∀ f, vf = some f → f.products.getD [] = [] ∨ t.hasProduct = true) :
    ∃ t2, FAO.applyProductsFilter vf t = .ok t2 := by
  match vf with
  | none => exact ⟨t, rfl⟩
  | some f =>
    rcases hwf f rfl with h0 | h1
    · exact ⟨t, by simp [FAO.applyProductsFilter, h0]⟩
    · unfold FAO.applyProductsFilter
      by_cases hp : (f.products.getD []).isEmpty
      · simp only [hp, Bool.not_true, Bool.false_eq_true, if_false, ite_false]
        exact ⟨t, rfl⟩
      · simp only [hp, Bool.not_false, if_true, ite_true, h1]
        exact ⟨_, rfl⟩

/-- C6 counterexample: `update_top_areas` applied to a store whose products
filter is non-empty and a frame without a `Product` column raises
`KeyError` instead of returning a placeholder figure. -/
theorem food_missing_product_column_raises :
    FAO.update_top_areas
        (some ⟨some [], some ["Wheat"], some []⟩)
        ⟨true, false, true, true, [⟨"France", "Wheat", 1961, 3⟩]⟩
      = .error "KeyError" := rfl

/-- C6 (amended): in `update_top_areas`, given the well-formed year range
the range slider provides (zero or two entries), an empty store yields the
"No data available" placeholder, an empty filtered result yields the
"No data for selected filters" placeholder, and no combination whose
products filter is empty or whose frame has a `Product` column raises; in
the flights dashboard, the day-chart path checks emptiness and returns its
placeholder, but the airline path renders a bar chart with empty data and
no placeholder check. -/
theorem food_flights_placeholders_amended :
    (∀ (vf : Option FAO.StoredFilters) (t : FAO.LongTable),
        (∀ f, vf = some f →
          ((f.yearRange.getD []).length = 0 ∨ (f.yearRange.getD []).length = 2)
          ∧ (f.products.getD [] = [] ∨ t.hasProduct = true)) →
        (∃ fig, FAO.update_top_areas vf t = .ok fig)
        ∧ (t.rows = [] →
            FAO.update_top_areas vf t = .ok (.placeholder "No data available")))
    ∧ (∀ (vf : Option FAO.StoredFilters) (t t1 t2 : FAO.LongTable),
        t.rows ≠ [] →
        FAO.applyYearFilter vf t = .ok t1 →
        FAO.applyProductsFilter vf t1 = .ok t2 →
        t2.rows = [] →
        FAO.update_top_areas vf t = .ok (.placeholder "No data for selected filters"))
    ∧ Flights.make_day_fig [] = .placeholder "Aucune donnée"
    ∧ Flights.make_airline_fig [] = .bar "Top 15 compagnies (retard moyen)" [] := by
  refine ⟨?_, ?_, rfl, rfl⟩
  · intro vf t hwf
    constructor
    · unfold FAO.update_top_areas
      by_cases he : t.rows.isEmpty
      · rw [if_pos he]
        exact ⟨_, rfl⟩
      · rw [if_neg he]
        obtain ⟨t1, h1, -, hflag⟩ := applyYearFilter_ok vf t fun f hf => (hwf f hf).1
        have hprod : ∀ f, vf = some f → f.products.getD [] = [] ∨ t1.hasProduct = true := by
          intro f hf
          rcases (hwf f hf).2 with h | h
          · exact Or.inl h
          · exact Or.inr (hflag.trans h)
        obtain ⟨t2, h2⟩ := applyProductsFilter_ok vf t1 hprod
        rw [h1]
        dsimp only
        rw [h2]
        dsimp only
        split
        · exact ⟨_, rfl⟩
        · exact ⟨_, rfl⟩
    · intro hrows
      unfold FAO.update_top_areas
      rw [if_pos (by simp [hrows])]
  · intro vf t t1 t2 hne h1 h2 h2rows
    unfold FAO.update_top_areas
    rw [if_neg (by simpa using hne), h1]
    dsimp only
    rw [h2]
    dsimp only
    rw [if_pos (by simp [h2rows])]

/-- Closed witness for `food_flights_placeholders_amended`: with no stored
filters a one-row table renders, and a year range excluding every row
yields the no-data placeholder. -/
theorem food_flights_placeholders_amended_witness :
    (∃ fig, FAO.update_top_areas none
        ⟨true, true, true, true, [⟨"France", "Wheat", 1961, 3⟩]⟩ = .ok fig)
    ∧ FAO.update_top_areas (some ⟨some [], some [], some [1970, 1975]⟩)
        ⟨true, true, true, true, [⟨"France", "Wheat", 1961, 3⟩]⟩
      = .ok (.placeholder "No data for selected filters") := by
  refine ⟨(food_flights_placeholders_amended.1 none
      ⟨true, true, true, true, [⟨"France", "Wheat", 1961, 3⟩]⟩
      (fun f hf => by cases hf)).1,
    food_flights_placeholders_amended.2.1
      (some ⟨some [], some [], some [1970, 1975]⟩)
      ⟨true, true, true, true, [⟨"France", "Wheat", 1961, 3⟩]⟩
      ⟨true, true, true, true, []⟩ ⟨true, true, true, true, []⟩
      (by simp) rfl rfl rfl⟩

/-- C7 counterexample: the flights dashboard reads its CSV at module level
with no exception handler (`app/flights/app_flights.py`, line 9), so with
the file missing the load raises `FileNotFoundError` and startup aborts
rather than continuing with a placeholder dataset. -/
theorem flights_missing_file_aborts :
    Flights.load_flights false [] = .error "FileNotFoundError" := rfl

/-- C7 (amended): the WHO dashboards catch the missing-file error and
continue with the hard-coded dummy frame, and the food dashboard's
`load_prepare_data` returns empty frames when neither data file exists; the
flights dashboard has no such fallback. -/
theorem startup_fallback_amended (rows : List WHO.WRow) (yearCols : List String)
    (raw : List FAO.WideRow) :
    WHO.whoLoadData false rows = WHO.whoDummy
    ∧ WHO.whoLoadData true rows = rows
    ∧ FAO.load_prepare_data false false yearCols raw = ([], []) :=
  ⟨rfl, rfl, rfl⟩

lemma sum_map_eq_sum_get (l : List α) (f : α → ℚ) :
    (l.map f).sum = ∑ i : Fin l.length, f (l.get i) := by
  conv_lhs => rw [← List.ofFn_get l]
  rw [List.map_ofFn, List.sum_ofFn]
  rfl

lemma list_cauchy_schwarz (l : List (ℚ × ℚ)) :
    ((l.map fun p => p.1 * p.2).sum) ^ 2
      ≤ ((l.map fun p => p.1 ^ 2).sum) * ((l.map fun p => p.2 ^ 2).sum) := by
  rw [sum_map_eq_sum_get, sum_map_eq_sum_get, sum_map_eq_sum_get]
  exact Finset.sum_mul_sq_le_sq_mul_sq Finset.univ
    (fun i => (l.get i).1) (fun i => (l.get i).2)

lemma sxx_nonneg (l : List (ℚ × ℚ)) : 0 ≤ WHO.sxx l := by
  apply List.sum_nonneg
  intro x hx
  rcases List.mem_map.1 hx with ⟨p, -, rfl⟩
  exact sq_nonneg _

lemma syy_nonneg (l : List (ℚ × ℚ)) : 0 ≤ WHO.syy l := by
  apply List.sum_nonneg
  intro x hx
  rcases List.mem_map.1 hx with ⟨p, -, rfl⟩
  exact sq_nonneg _

lemma sq_sxy_le (l : List (ℚ × ℚ)) : WHO.sxy l ^ 2 ≤ WHO.sxx l * WHO.syy l :=
  list_cauchy_schwarz (WHO.centered l)

lemma pearson_bound (l : List (ℚ × ℚ)) : -1 ≤ WHO.pearson l ∧ WHO.pearson l ≤ 1 := by
  have habs : |WHO.pearson l| ≤ 1 := by
    rcases eq_or_ne (Real.sqrt ((WHO.sxx l : ℝ)) * Real.sqrt ((WHO.syy l : ℝ))) 0 with h0 | h0
    · unfold WHO.pearson
      rw [h0, div_zero]
      norm_num
    · have hA : (0 : ℝ) ≤ Real.sqrt ((WHO.sxx l : ℝ)) := Real.sqrt_nonneg _
      have hB : (0 : ℝ) ≤ Real.sqrt ((WHO.syy l : ℝ)) := Real.sqrt_nonneg _
      have hAB : (0 : ℝ) < Real.sqrt ((WHO.sxx l : ℝ)) * Real.sqrt ((WHO.syy l : ℝ)) :=
        (mul_nonneg hA hB).lt_of_ne (Ne.symm h0)
      have hxx : (0 : ℝ) ≤ (WHO.sxx l : ℝ) := by exact_mod_cast sxx_nonneg l
      have hcs : ((WHO.sxy l : ℝ)) ^ 2 ≤ (WHO.sxx l : ℝ) * (WHO.syy l : ℝ) := by
        exact_mod_cast sq_sxy_le l
      have hnum : |(WHO.sxy l : ℝ)|
          ≤ Real.sqrt ((WHO.sxx l : ℝ)) * Real.sqrt ((WHO.syy l : ℝ)) := by
        calc |(WHO.sxy l : ℝ)| = Real.sqrt (((WHO.sxy l : ℝ)) ^ 2) :=
              (Real.sqrt_sq_eq_abs _).symm
          _ ≤ Real.sqrt ((WHO.sxx l : ℝ) * (WHO.syy l : ℝ)) := Real.sqrt_le_sqrt hcs
          _ = _ := Real.sqrt_mul hxx _
      unfold WHO.pearson
      rw [abs_div, abs_of_pos hAB]
      exact (div_le_one hAB).2 hnum
  exact abs_le.1 habs

lemma pearsonOpt_some {l : List (ℚ × ℚ)} {v : ℝ} (h : WHO.pearsonOpt l = some v) :
    v = WHO.pearson l ∧ -1 ≤ v ∧ v ≤ 1 := by
  unfold WHO.pearsonOpt at h
  split at h
  · cases h
  · cases h
    exact ⟨rfl, pearson_bound l⟩

lemma corrSeries_mem {numericCols : List String} {indicator : String}
    {rows : List WHO.WRow} {q : String × Option ℝ}
    (hq : q ∈ WHO.corrSeries numericCols indicator rows) :
    q.1 ∈ numericCols ∧ q.1 ≠ indicator
      ∧ q.2 = WHO.pearsonOpt (WHO.pairedVals indicator q.1 rows) := by
  rcases List.mem_map.1 hq with ⟨c, hc, rfl⟩
  rcases List.mem_filter.1 hc with ⟨hcn, hcne⟩
  exact ⟨hcn, by simpa using hcne, rfl⟩

lemma corrSeries_mem_of {numericCols : List String} {indicator c : String}
    {rows : List WHO.WRow} (hc : c ∈ numericCols) (hne : c ≠ indicator) :
    (c, WHO.pearsonOpt (WHO.pairedVals indicator c rows))
      ∈ WHO.corrSeries numericCols indicator rows :=
  List.mem_map.2 ⟨c, List.mem_filter.2 ⟨hc, by simpa using hne⟩, rfl⟩

lemma corrDefinedSorted_mem {numericCols : List String} {indicator : String}
    {rows : List WHO.WRow} {p : String × ℝ}
    (hp : p ∈ WHO.corrDefinedSorted numericCols indicator rows) :
    p.1 ∈ numericCols ∧ p.1 ≠ indicator
      ∧ WHO.pearsonOpt (WHO.pairedVals indicator p.1 rows) = some p.2 := by
  rw [WHO.corrDefinedSorted, List.mem_insertionSort] at hp
  rcases List.mem_filterMap.1 hp with ⟨q, hq, hqp⟩
  obtain ⟨h1, h2, h3⟩ := corrSeries_mem hq
  rcases hv : q.2 with - | v
  · rw [hv] at hqp
    cases hqp
  · rw [hv] at hqp
    simp only [Option.map_some'] at hqp
    cases hqp
    refine ⟨h1, h2, ?_⟩
    rw [← h3, hv]

/-- C5 (amended): the correlation data of `update_correlation_graph` pairs
exactly the numeric columns other than the indicator with their Pearson
correlation against the indicator (`NaN` for a degenerate column), never
contains the indicator itself, lists the defined correlations first sorted
descending by value with the `NaN` entries last, and every defined listed
correlation lies in `[-1, 1]`. -/
theorem who_correlation_ranking_amended (numericCols : List String) (indicator : String)
    (rows : List WHO.WRow) :
    (numericCols.contains indicator = true →
      WHO.update_correlation_graph numericCols indicator rows
        = .chart (WHO.corrSorted numericCols indicator rows))
    ∧ indicator ∉ (WHO.corrSorted numericCols indicator rows).map Prod.fst
    ∧ (∀ c, c ∈ (WHO.corrSorted numericCols indicator rows).map Prod.fst
        ↔ c ∈ numericCols ∧ c ≠ indicator)
    ∧ (∀ p ∈ WHO.corrSorted numericCols indicator rows,
        p.2 = WHO.pearsonOpt (WHO.pairedVals indicator p.1 rows))
    ∧ WHO.corrSorted numericCols indicator rows
        = ((WHO.corrDefinedSorted numericCols indicator rows).map fun p => (p.1, some p.2))
          ++ WHO.corrNaN numericCols indicator rows
    ∧ List.Sorted (fun a b => b.2 ≤ a.2)
        (WHO.corrDefinedSorted numericCols indicator rows)
    ∧ (∀ p ∈ WHO.corrDefinedSorted numericCols indicator rows,
        WHO.pearsonOpt (WHO.pairedVals indicator p.1 rows) = some p.2
        ∧ -1 ≤ p.2 ∧ p.2 ≤ 1)
    ∧ (∀ p ∈ WHO.corrNaN numericCols indicator rows,
        p.2 = none ∧ WHO.pearsonOpt (WHO.pairedVals indicator p.1 rows) = none) := by
  have hiff : ∀ c, c ∈ (WHO.corrSorted numericCols indicator rows).map Prod.fst
      ↔ c ∈ numericCols ∧ c ≠ indicator := by
    intro c
    constructor
    · intro hc
      rw [WHO.corrSorted, List.map_append, List.mem_append] at hc
      rcases hc with hc | hc
      · rw [List.map_map] at hc
        rcases List.mem_map.1 hc with ⟨p, hp, hpc⟩
        obtain ⟨h1, h2, -⟩ := corrDefinedSorted_mem hp
        have hp1 : p.1 = c := hpc
        subst hp1
        exact ⟨h1, h2⟩
      · rcases List.mem_map.1 hc with ⟨q, hq, hqc⟩
        obtain ⟨h1, h2, -⟩ := corrSeries_mem (List.mem_of_mem_filter hq)
        have hq1 : q.1 = c := hqc
        subst hq1
        exact ⟨h1, h2⟩
    · rintro ⟨hc, hne⟩
      rw [WHO.corrSorted, List.map_append, List.mem_append]
      rcases hopt : WHO.pearsonOpt (WHO.pairedVals indicator c rows) with - | v
      · right
        refine List.mem_map.2
          ⟨(c, WHO.pearsonOpt (WHO.pairedVals indicator c rows)), ?_, rfl⟩
        exact List.mem_filter.2 ⟨corrSeries_mem_of hc hne, by simp [hopt]⟩
      · left
        rw [List.map_map]
        refine List.mem_map.2 ⟨(c, v), ?_, rfl⟩
        rw [WHO.corrDefinedSorted, List.mem_insertionSort]
        exact List.mem_filterMap.2
          ⟨(c, WHO.pearsonOpt (WHO.pairedVals indicator c rows)),
            corrSeries_mem_of hc hne, by simp [hopt]⟩
  refine ⟨fun h => by
      have hm : indicator ∈ numericCols := by simpa using h
      simp [WHO.update_correlation_graph, hm],
    fun hmem => ((hiff indicator).1 hmem).2 rfl,
    hiff, ?_, rfl, List.sorted_insertionSort _ _, ?_, ?_⟩
  · intro p hp
    rw [WHO.corrSorted, List.mem_append] at hp
    rcases hp with hp | hp
    · rcases List.mem_map.1 hp with ⟨q, hq, rfl⟩
      obtain ⟨-, -, h3⟩ := corrDefinedSorted_mem hq
      exact h3.symm
    · obtain ⟨-, -, h3⟩ := corrSeries_mem (List.mem_of_mem_filter hp)
      exact h3
  · intro p hp
    obtain ⟨-, -, h3⟩ := corrDefinedSorted_mem hp
    obtain ⟨-, hb⟩ := pearsonOpt_some h3
    exact ⟨h3, hb⟩
  · intro p hp
    have hnone : p.2 = none := by
      simpa [Option.isNone_iff_eq_none] using (List.mem_filter.1 hp).2
    obtain ⟨-, -, h3⟩ := corrSeries_mem (List.mem_of_mem_filter hp)
    exact ⟨hnone, by rw [← h3, hnone]⟩

/-- C5 counterexample: on a dataset with a constant `IDH` column,
`DataFrame.corr` yields `NaN` for the `IDH` entry and the computed list
contains it, so the listed correlation for `IDH` is not a real value in
`[-1, 1]`. -/
theorem who_correlation_nan_counterexample :
    WHO.corrSorted ["life_expectancy", "IDH"] "life_expectancy" WHO.whoConstIDH
      = [("IDH", (none : Option ℝ))]
    ∧ ("IDH", (none : Option ℝ)) ∈
        WHO.corrSorted ["life_expectancy", "IDH"] "life_expectancy" WHO.whoConstIDH
    ∧ ¬ ∃ v : ℝ, ("IDH", (none : Option ℝ)).2 = some v ∧ -1 ≤ v ∧ v ≤ 1 := by
  have hpv : WHO.pairedVals "life_expectancy" "IDH" WHO.whoConstIDH
      = [(1, 5), (2, 5)] := rfl
  have hsy : WHO.syy [((1 : ℚ), (5 : ℚ)), (2, 5)] = 0 := by
    norm_num [WHO.syy, WHO.centered, meanQ]
  have hopt : WHO.pearsonOpt
      (WHO.pairedVals "life_expectancy" "IDH" WHO.whoConstIDH) = none := by
    rw [hpv]
    unfold WHO.pearsonOpt
    rw [if_pos (Or.inr hsy)]
  have hser : WHO.corrSeries ["life_expectancy", "IDH"] "life_expectancy" WHO.whoConstIDH
      = [("IDH", none)] := by
    simp [WHO.corrSeries, hopt]
  have hall : WHO.corrSorted ["life_expectancy", "IDH"] "life_expectancy" WHO.whoConstIDH
      = [("IDH", (none : Option ℝ))] := by
    simp [WHO.corrSorted, WHO.corrDefinedSorted, WHO.corrNaN, hser, List.insertionSort]
  refine ⟨hall, by rw [hall]; exact List.mem_singleton_self _, ?_⟩
  rintro ⟨v, hv, -⟩
  cases hv

/-- Closed witness for `who_correlation_ranking_amended`: on a concrete
dataset with both columns non-constant, the handler charts the sorted
series and the single defined correlation lies in `[-1, 1]`. -/
theorem who_correlation_ranking_amended_witness :
    WHO.update_correlation_graph ["life_expectancy", "IDH"] "life_expectancy" WHO.whoLinear
      = .chart (WHO.corrSorted ["life_expectancy", "IDH"] "life_expectancy" WHO.whoLinear)
    ∧ -1 ≤ WHO.pearson [((0 : ℚ), (0 : ℚ)), (1, 1)]
    ∧ WHO.pearson [((0 : ℚ), (0 : ℚ)), (1, 1)] ≤ 1 := by
  have h := who_correlation_ranking_amended ["life_expectancy", "IDH"]
    "life_expectancy" WHO.whoLinear
  have hpv : WHO.pairedVals "life_expectancy" "IDH" WHO.whoLinear
      = [(0, 0), (1, 1)] := rfl
  have hnz : ¬(WHO.sxx [((0 : ℚ), (0 : ℚ)), (1, 1)] = 0
      ∨ WHO.syy [((0 : ℚ), (0 : ℚ)), (1, 1)] = 0) := by
    norm_num [WHO.sxx, WHO.syy, WHO.centered, meanQ]
  have hopt : WHO.pearsonOpt (WHO.pairedVals "life_expectancy" "IDH" WHO.whoLinear)
      = some (WHO.pearson [((0 : ℚ), (0 : ℚ)), (1, 1)]) := by
    rw [hpv]
    unfold WHO.pearsonOpt
    rw [if_neg hnz]
  have hmem : ("IDH", WHO.pearson [((0 : ℚ), (0 : ℚ)), (1, 1)])
      ∈ WHO.corrDefinedSorted ["life_expectancy", "IDH"] "life_expectancy" WHO.whoLinear := by
    rw [WHO.corrDefinedSorted, List.mem_insertionSort]
    refine List.mem_filterMap.2
      ⟨("IDH", WHO.pearsonOpt (WHO.pairedVals "life_expectancy" "IDH" WHO.whoLinear)),
        corrSeries_mem_of (by simp) (by simp), ?_⟩
    rw [hopt]
    rfl
  exact ⟨h.1 rfl, (h.2.2.2.2.2.2.1 _ hmem).2⟩
